import Mathlib

/-!
Verification development for the citizenwallet/sessions repository.

The TypeScript source is shallowly embedded in Lean. Cryptographic hashes
(keccak256 via ethers id / AbiCoder.encode) are modelled as a free term
algebra (constructor injectivity stands in for collision resistance), the
service wallet signature as a free pair of key and message, and ECDSA
address recovery as an abstract function parameter. External effects (the
community-config fetch, the ledger read, the relay submission, the OTP
notifier, the rate-limit store) are passed in explicitly as an environment,
and each route handler is a pure function from its environment and request
body to a response together with the list of external calls it made.
-/

set_option maxRecDepth 8000

namespace CwSessions

/-! ## Hash chain (src/unnamed/part_000)

ethers id and keccak256 over AbiCoder encodings are one-way hashes; the
model keeps their arguments symbolically, so equal hashes mean equal
preimages and distinct preimages give distinct hashes. -/

/-- Symbolic value of a keccak-based hash produced by the session service. -/
inductive HashExpr where
  /-- ethers id applied to a UTF-8 string -/
  | idHash (preimage : String)
  /-- keccak256 of abi.encode of the tuple address, address, bytes32, uint48 -/
  | requestHash (provider owner : String) (salt : HashExpr) (expiry : Nat)
  /-- keccak256 of abi.encode of the tuple bytes32, uint256 -/
  | sessionHashOf (requestHash : HashExpr) (challenge : Nat)
deriving DecidableEq, Repr

/-- generateSessionSalt of part_000: id of the string source, colon, type. -/
def generateSessionSalt (source type : String) : HashExpr :=
  .idHash (source ++ ":" ++ type)

/-- generateSessionRequestHash of part_000: keccak256 of the abi encoding of
provider, owner, salt and the 48-bit expiry. -/
def generateSessionRequestHash (provider owner : String) (salt : HashExpr)
    (expiry : Nat) : HashExpr :=
  .requestHash provider owner salt expiry

/-- generateSessionHash of part_000: keccak256 of the abi encoding of the
session request hash and the numeric challenge. -/
def generateSessionHash (sessionRequestHash : HashExpr) (challenge : Nat) : HashExpr :=
  .sessionHashOf sessionRequestHash challenge

/-- Wallet.signMessage by the service signer, modelled as the free pair of
the signing key and the signed hash. -/
structure ServiceSig where
  key : String
  message : HashExpr
deriving DecidableEq, Repr

/-- signer.signMessage on the bytes of a hash. -/
def signMessage (key : String) (message : HashExpr) : ServiceSig :=
  ⟨key, message⟩

/-- Bytes stored on the ledger in the signedSessionHash slot: either a
signature the service produced earlier, or arbitrary other bytes (for
instance the zero bytes of an empty record). -/
inductive LedgerBytes where
  | sig (s : ServiceSig)
  | raw (bytes : String)
deriving DecidableEq, Repr

/-! ## Signature verification (src/unnamed/part_000, verifyMessage of ethers)

ethers v6 verifyMessage first parses the signature (Signature.from), which
throws unless the string is 0x-prefixed hex of 64 or 65 bytes; for a string
that parses it recovers an address. Recovery itself is abstract here: it is
a parameter of every function that verifies a signature. -/

/-- Hexadecimal digit, either case. -/
def isHexDigitChar (c : Char) : Bool :=
  c.isDigit || (97 ≤ c.toNat && c.toNat ≤ 102) || (65 ≤ c.toNat && c.toNat ≤ 70)

/-- Signature strings ethers Signature.from accepts: 0x followed by 130 hex
characters (65 bytes) or 128 hex characters (64 bytes, compact form). -/
def isWellFormedSignature (s : String) : Bool :=
  let cs := s.toList
  (cs.take 2 == ['0', 'x']) && (cs.length == 132 || cs.length == 130)
    && (cs.drop 2).all isHexDigitChar

/-- ethers verifyMessage over the bytes of a hash: throws (Except.error) when
the signature does not parse, otherwise recovers an address via the abstract
ecrecover. -/
def verifyMessage (ecrecover : HashExpr → String → String) (h : HashExpr)
    (signature : String) : Except String String :=
  if isWellFormedSignature signature then .ok (ecrecover h signature)
  else .error "invalid signature"

/-- verifySessionRequest of part_000: recomputes salt and request hash from
the inputs and compares the recovered signer of the signature to the session
owner with exact string equality. A parse failure inside verifyMessage is not
caught and propagates. -/
def verifySessionRequest (ecrecover : HashExpr → String → String)
    (sessionProvider sessionOwner source type : String) (expiry : Nat)
    (signature : String) : Except String Bool :=
  let sessionSalt := generateSessionSalt source type
  let sessionRequestHash :=
    generateSessionRequestHash sessionProvider sessionOwner sessionSalt expiry
  match verifyMessage ecrecover sessionRequestHash signature with
  | .error e => .error e
  | .ok recoveredAddress => .ok (recoveredAddress == sessionOwner)

/-- verifySessionConfirm of part_000: compares the recovered signer of the
signed session hash to the session owner with exact string equality. A parse
failure inside verifyMessage is not caught and propagates. -/
def verifySessionConfirm (ecrecover : HashExpr → String → String)
    (sessionOwner : String) (sessionHash : HashExpr)
    (signedSessionHash : String) : Except String Bool :=
  match verifyMessage ecrecover sessionHash signedSessionHash with
  | .error e => .error e
  | .ok recoveredAddress => .ok (recoveredAddress == sessionOwner)

/-! ## Challenge generator (src/utils/generateotp.ts) -/

/-- generateOtp of generateotp.ts: Math.floor of 10 ^ (count - 1) plus
Math.random() times (9 * 10 ^ (count - 1) - 10 ^ (count - 1)). The value of
Math.random(), a number in [0, 1), is the explicit argument rand. -/
def generateOtp (count : Nat) (rand : ℚ) : ℤ :=
  Int.floor ((10 : ℚ) ^ (count - 1)
    + rand * (9 * (10 : ℚ) ^ (count - 1) - (10 : ℚ) ^ (count - 1)))

/-- generateSessionChallenge of part_000: generateOtp with 6 digits. -/
def generateSessionChallenge (rand : ℚ) : ℤ :=
  generateOtp 6 rand

/-! ## Ledger read and verifyIncomingSessionRequest (src/unnamed/part_000)

contract.sessionRequests(provider, sessionRequestHash) decodes to a tuple;
the model keeps the decoded length, the two expiries (result[0], result[1]
as numbers) and the stored signedSessionHash bytes (result[2]). The ledger
as a whole is a function from the query key to an optional result; none
models the RPC call itself throwing. -/

/-- Decoded result of the sessionRequests contract call. -/
structure RawSessionResult where
  /-- result.length, the number of decoded components -/
  len : Nat
  /-- Number(result[0]) -/
  sessionExpiry : Nat
  /-- Number(result[1]) -/
  challengeExpiry : Nat
  /-- result[2] -/
  storedSignedSessionHash : LedgerBytes
deriving DecidableEq, Repr

/-- Body of the try block of verifyIncomingSessionRequest of part_000: read
the ledger record, require at least 5 components, require the session expiry
and then the challenge expiry to be at least now (the code rejects with
strictly-less-than comparisons), then compare the stored signedSessionHash
with a fresh service signature of the session hash. Each rejection is a
thrown Error with the message the code uses. -/
def verifyIncomingInner (ledger : String → HashExpr → Option RawSessionResult)
    (now : Nat) (signerKey provider : String)
    (sessionRequestHash sessionHash : HashExpr) : Except String Bool :=
  match ledger provider sessionRequestHash with
  | none => .error "rpc error"
  | some result =>
    if result.len < 5 then .error "Session request not found"
    else if result.sessionExpiry < now then .error "Session request expired"
    else if result.challengeExpiry < now then .error "Challenge expired"
    else .ok (result.storedSignedSessionHash
      == LedgerBytes.sig (signMessage signerKey sessionHash))

/-- verifyIncomingSessionRequest of part_000: the try block above wrapped in
the catch-all that logs the error and returns false, collapsing every
distinct failure into the same boolean. -/
def verifyIncomingSessionRequest (ledger : String → HashExpr → Option RawSessionResult)
    (now : Nat) (signerKey provider : String)
    (sessionRequestHash sessionHash : HashExpr) : Bool :=
  match verifyIncomingInner ledger now signerKey provider sessionRequestHash sessionHash with
  | .ok b => b
  | .error _ => false

/-! ## Request and confirm bodies, responses, external-call events -/

/-- Parsed JSON body of a session POST request. -/
structure SessionRequestBody where
  provider : String
  owner : String
  source : String
  type : String
  expiry : Nat
  signature : String
deriving DecidableEq, Repr

/-- Parsed JSON body of a session PATCH (confirm) request. The two hashes
arrive as hex strings in the JSON; they are typed symbolically here. -/
structure SessionConfirmBody where
  provider : String
  owner : String
  sessionRequestHash : HashExpr
  sessionHash : HashExpr
  signedSessionHash : String
deriving DecidableEq, Repr

/-- A NextResponse as the client sees it: the real HTTP status of the
response, the status field inside the JSON body, the message field, and the
transaction hash field of a success body. (The passkey success body also
echoes the challenge message and its expiry; no claim inspects those two
fields and they are omitted.) -/
structure ApiResponse where
  httpStatus : Nat
  bodyStatus : Nat
  message : Option String
  txHash : Option String
deriving DecidableEq, Repr

/-- External calls a handler makes, in order. The relay submission also
carries the owner signature and the expiries; the fields kept here are the
ones the claims inspect. -/
inductive Event where
  /-- getConfigOfAlias: fetch of the communities config -/
  | configFetch
  /-- requestSession: bundler call submitting the request to the ledger -/
  | relaySubmit (salt sessionRequestHash : HashExpr) (signedSessionHash : ServiceSig)
  /-- confirmSession: bundler call submitting the confirm to the ledger -/
  | confirmSubmit
  /-- sendOtpEmail -/
  | emailSend (dest : String) (otp : Nat)
  /-- sendOtpSMS -/
  | smsSend (dest : String) (otp : Nat)
deriving DecidableEq, Repr

/-- Community configuration, reduced to the field the handlers read:
community.primarySessionConfig.provider_address. -/
structure CommunityCfg where
  providerAddress : String
deriving DecidableEq, Repr

/-- JS String.prototype.toLowerCase, modelled character-wise. -/
def jsToLower (s : String) : String :=
  String.mk (s.toList.map Char.toLower)

/-- JS String.prototype.trim: whitespace stripped from both ends. -/
def jsTrim (s : String) : String :=
  String.mk (((s.toList.dropWhile Char.isWhitespace).reverse.dropWhile
    Char.isWhitespace).reverse)

/-- source.toLowerCase().trim(), the email normalization of the handlers. -/
def normalizeSource (s : String) : String :=
  jsTrim (jsToLower s)

/-- Substring test, used for the error-message branch matching
message.includes("in request body"). -/
def containsSubstring (s pat : String) : Bool :=
  (List.range (s.toList.length + 1)).any
    (fun i => pat.toList.isPrefixOf (s.toList.drop i))

/-- sanitizeSessionRequest of part_004: required-field checks (JS falsiness
of a string is emptiness, of the expiry number it is zero), the closed type
enum, and for email the source lowercased then trimmed before anything is
derived from it. -/
def sanitizeSessionRequest (body : SessionRequestBody) :
    Except String SessionRequestBody :=
  if body.provider == "" then .error "Invalid provider address in request body"
  else if body.owner == "" then .error "Invalid owner address in request body"
  else if body.source == "" then .error "Invalid source in request body"
  else if !(body.type == "email" || body.type == "sms" || body.type == "passkey") then
    .error "Invalid source type in request body"
  else if body.expiry == 0 then .error "Invalid expiry in request body"
  else if body.signature == "" then .error "Invalid signature in request body"
  else .ok { body with
    source := if body.type == "email" then normalizeSource body.source else body.source }

/-- sanitizeSessionConfirm of the PATCH route of generateotp.ts: required
string fields must be non-empty. (The two hash fields are symbolic here, so
their string emptiness checks have no counterpart.) -/
def sanitizeSessionConfirm (body : SessionConfirmBody) :
    Except String SessionConfirmBody :=
  if body.provider == "" then .error "Invalid provider address in request body"
  else if body.owner == "" then .error "Invalid owner address in request body"
  else if body.signedSessionHash == "" then .error "Invalid signedSessionHash in request body"
  else .ok body

/-! ## POST handler of src/app/api/v1/app/[alias]/session/post.ts

This variant reads the expected provider address from the environment
variable PROVIDER_ACCOUNT_ADDRESS and performs no try/catch around the
signature check, so a thrown verifyMessage error escapes the handler
(modelled by the Except.error of the result). Note that it verifies the
signature against the locally normalized source but derives the salt it
submits from the raw body source. -/

/-- Environment of the post.ts POST handler: the two env vars, the abstract
address recovery, the Math.random draw feeding generateSessionChallenge (as
the resulting OTP), and the outcomes of the two external calls it can make. -/
structure PostTsEnv where
  providerPrivateKey : Option String
  providerAccountAddress : Option String
  ecrecover : HashExpr → String → String
  otp : Nat
  config : Except String Unit
  relay : Except String String

/-- POST of post.ts. The first component is the response, or Except.error
for an exception that escapes the handler; the second is the trace of
external calls made, in order. -/
def postTs (env : PostTsEnv) (body : SessionRequestBody) :
    Except String ApiResponse × List Event :=
  match env.providerPrivateKey with
  | none => (.ok ⟨500, 500, some "Internal Server Error", none⟩, [])
  | some key =>
    match env.providerAccountAddress with
    | none =>
      -- NextResponse.json without a status option: HTTP 200, body status 500
      (.ok ⟨200, 500, some "Internal Server Error", none⟩, [])
    | some providerAccountAddress =>
      if body.provider != providerAccountAddress then
        -- NextResponse.json without a status option: HTTP 200, body status 400
        (.ok ⟨200, 400, some "Bad Request", none⟩, [])
      else
        let source :=
          if body.type == "email" then normalizeSource body.source else body.source
        match verifySessionRequest env.ecrecover body.provider body.owner source
            body.type body.expiry body.signature with
        | .error e => (.error e, [])
        | .ok false => (.ok ⟨400, 400, some "Bad Request", none⟩, [])
        | .ok true =>
          -- the salt is derived from body.source, not from the normalized source
          let sessionSalt := generateSessionSalt body.source body.type
          let sessionRequestHash :=
            generateSessionRequestHash body.provider body.owner sessionSalt body.expiry
          let sessionHash := generateSessionHash sessionRequestHash env.otp
          let signedSessionHash := signMessage key sessionHash
          match env.config with
          | .error e =>
            (.ok (if e == "COMMUNITIES_CONFIG_URL is not set" then
                    ⟨500, 500, some "Server configuration error", none⟩
                  else if "No community config found for".toList.isPrefixOf e.toList then
                    ⟨404, 404, some "Community not found", none⟩
                  else ⟨500, 500, some "Internal Server Error", none⟩),
             [.configFetch])
          | .ok _ =>
            match env.relay with
            | .error e =>
              (.ok (if e == "No sessions found" then
                      ⟨400, 400, some "Community has no session configuration", none⟩
                    else ⟨500, 500, some "Internal Server Error", none⟩),
               [.configFetch, .relaySubmit sessionSalt sessionRequestHash signedSessionHash])
            | .ok tx =>
              (.ok ⟨200, 200, none, some tx⟩,
               [.configFetch, .relaySubmit sessionSalt sessionRequestHash signedSessionHash])

/-! ## POST handler of src/unnamed/part_004

This variant sanitizes the body first (normalizing the email source there),
fetches the community config before any other check, reads the expected
provider address from community.primarySessionConfig, and runs inside one
try/catch whose message dispatch is post4ErrorResponse. It dispatches OTP
delivery by awaiting sendOtpEmail / sendOtpSMS after the relay submission,
inside the same try block. -/

/-- Row of the session_request table
(src/services/db/session_request.ts). created_at is epoch milliseconds. -/
structure SessionRequestRow where
  salt : String
  communityAlias : String
  created_at : Nat
deriving DecidableEq, Repr

/-- getImmediateSessionRequestCount of session_request.ts: the count of rows
with this salt and alias created within the trailing 30 seconds (30000
milliseconds before nowMs). A query error yields 0. -/
def getImmediateSessionRequestCount (rows : List SessionRequestRow)
    (salt communityAlias : String) (nowMs : Nat) : Nat :=
  (rows.filter (fun r =>
    r.salt == salt && r.communityAlias == communityAlias
      && nowMs - 30000 ≤ r.created_at)).length

/-- Catch-block dispatch of the part_004 POST handler, from the thrown
message to the response. -/
def post4ErrorResponse (e : String) : ApiResponse :=
  if e == "PROVIDER_PRIVATE_KEY is not set" then
    ⟨500, 500, some "Server configuration error", none⟩
  else if e == "COMMUNITIES_CONFIG_URL is not set" then
    ⟨500, 500, some "Server configuration error", none⟩
  else if "No community config found for".toList.isPrefixOf e.toList then
    ⟨404, 404, some "Community not found", none⟩
  else if e == "Invalid provider address" then
    ⟨400, 400, some "Invalid provider address in request", none⟩
  else if e == "Invalid session signature" then
    ⟨400, 400, some "Invalid session signature", none⟩
  else if e == "No sessions found" then
    ⟨400, 400, some "Community has no session configuration", none⟩
  else if containsSubstring e "in request body" then ⟨400, 400, some e, none⟩
  else ⟨500, 500, some "Internal Server Error", none⟩

/-- Environment of the part_004 POST handler. dbRows and nowMs model the
rate-limit store of session_request.ts; the handler never reads them, which
is exactly what claim C9 is about. connectionMessage is the
generateConnectionMessage helper of the SDK (owner, expiry.toString, empty
context). -/
structure Post4Env where
  providerPrivateKey : Option String
  config : Except String CommunityCfg
  ecrecover : HashExpr → String → String
  otp : Nat
  connectionMessage : String → Nat → String
  relay : Except String String
  email : Except String Unit
  sms : Except String Unit
  dbRows : List SessionRequestRow
  nowMs : Nat

/-- POST of part_004: response and trace of external calls. Every throw is
caught by the single catch and dispatched through post4ErrorResponse. For a
passkey request the challenge is the connection-message string and
generateSessionHash applies BigInt to it, which throws for a non-numeric
string (modelled by String.toNat?). -/
def post4 (env : Post4Env) (rawBody : SessionRequestBody) :
    ApiResponse × List Event :=
  match sanitizeSessionRequest rawBody with
  | .error e => (post4ErrorResponse e, [])
  | .ok body =>
    match env.config with
    | .error e => (post4ErrorResponse e, [.configFetch])
    | .ok cfg =>
      match env.providerPrivateKey with
      | none => (post4ErrorResponse "PROVIDER_PRIVATE_KEY is not set", [.configFetch])
      | some key =>
        if body.provider != cfg.providerAddress then
          (post4ErrorResponse "Invalid provider address", [.configFetch])
        else
          match verifySessionRequest env.ecrecover body.provider body.owner
              body.source body.type body.expiry body.signature with
          | .error e => (post4ErrorResponse e, [.configFetch])
          | .ok false => (post4ErrorResponse "Invalid session signature", [.configFetch])
          | .ok true =>
            let sessionSalt := generateSessionSalt body.source body.type
            let sessionRequestHash :=
              generateSessionRequestHash body.provider body.owner sessionSalt body.expiry
            -- challenge: a number for email and sms, a string for passkey
            let challenge : Option (Nat ⊕ String) :=
              if body.type == "email" || body.type == "sms" then some (.inl env.otp)
              else if body.type == "passkey" then
                some (.inr (env.connectionMessage body.owner body.expiry))
              else none
            -- if (!challenge): null, the number 0 and the empty string are falsy
            match challenge with
            | none => (post4ErrorResponse "Challenge generation failed", [.configFetch])
            | some ch =>
              if (match ch with | .inl n => n == 0 | .inr s => s == "") then
                (post4ErrorResponse "Challenge generation failed", [.configFetch])
              else
                match (match ch with | .inl n => some n | .inr s => s.toNat?) with
                | none =>
                  -- BigInt(challenge) throws inside generateSessionHash
                  (post4ErrorResponse "Cannot convert challenge to a BigInt", [.configFetch])
                | some challengeNum =>
                  let sessionHash := generateSessionHash sessionRequestHash challengeNum
                  let signedSessionHash := signMessage key sessionHash
                  let submitEvent :=
                    Event.relaySubmit sessionSalt sessionRequestHash signedSessionHash
                  match env.relay with
                  | .error e => (post4ErrorResponse e, [.configFetch, submitEvent])
                  | .ok tx =>
                    match
                      (if body.type == "email" then
                        (env.email, [Event.emailSend body.source env.otp])
                      else (.ok (), [])) with
                    | (.error e, evs) =>
                      (post4ErrorResponse e, [.configFetch, submitEvent] ++ evs)
                    | (.ok (), evs) =>
                      match
                        (if body.type == "sms" then
                          (env.sms, [Event.smsSend body.source env.otp])
                        else (.ok (), [])) with
                      | (.error e, evs2) =>
                        (post4ErrorResponse e, [.configFetch, submitEvent] ++ evs ++ evs2)
                      | (.ok (), evs2) =>
                        (⟨200, 200, none, some tx⟩,
                         [.configFetch, submitEvent] ++ evs ++ evs2)

/-! ## PATCH handler of src/app/api/v1/app/[alias]/session/patch.ts
(first variant)

Reads the expected provider from PROVIDER_ACCOUNT_ADDRESS, has no try/catch,
so thrown errors (a malformed signature inside verifySessionConfirm, a
getConfigOfAlias failure, a confirmSession failure) escape the handler. -/

/-- Environment of the patch.ts PATCH handler. -/
structure PatchTsEnv where
  providerPrivateKey : Option String
  providerAccountAddress : Option String
  ecrecover : HashExpr → String → String
  config : Except String CommunityCfg
  ledger : String → HashExpr → Option RawSessionResult
  now : Nat
  confirmTx : Except String String

/-- PATCH of patch.ts. Except.error is an exception escaping the handler.
The missing-key and missing-address responses both pass the 500 status
option; the provider-mismatch response is NextResponse.json without a status
option, so it goes out with HTTP 200 and only the body status 400. -/
def patchTs (env : PatchTsEnv) (body : SessionConfirmBody) :
    Except String ApiResponse :=
  match env.providerPrivateKey with
  | none => .ok ⟨500, 500, some "Internal Server Error", none⟩
  | some key =>
    match env.providerAccountAddress with
    | none => .ok ⟨500, 500, some "Internal Server Error", none⟩
    | some providerAccountAddress =>
      if body.provider != providerAccountAddress then
        -- NextResponse.json without a status option: HTTP 200, body status 400
        .ok ⟨200, 400, some "Bad Request", none⟩
      else
        match verifySessionConfirm env.ecrecover body.owner body.sessionHash
            body.signedSessionHash with
        | .error e => .error e
        | .ok false => .ok ⟨400, 400, some "Bad Request", none⟩
        | .ok true =>
          match env.config with
          | .error e => .error e
          | .ok _ =>
            if verifyIncomingSessionRequest env.ledger env.now key
                providerAccountAddress body.sessionRequestHash body.sessionHash then
              match env.confirmTx with
              | .error e => .error e
              | .ok tx => .ok ⟨200, 200, none, some tx⟩
            else .ok ⟨400, 400, some "Bad Request", none⟩

/-! ## PATCH handler of src/utils/generateotp.ts (second file in that blob)

The community-config variant of the confirm route: sanitize, config fetch,
key check, provider check against community.primarySessionConfig, signature
check, verifyIncomingSessionRequest, confirmSession, all inside one
try/catch whose message dispatch is patchCfgErrorResponse. -/

/-- Catch-block dispatch of the generateotp.ts PATCH handler. It has
branches for the distinct messages verifyIncomingSessionRequest throws
internally, though that function catches them itself and returns false. -/
def patchCfgErrorResponse (e : String) : ApiResponse :=
  if e == "PROVIDER_PRIVATE_KEY is not set" then
    ⟨500, 500, some "Server configuration error", none⟩
  else if e == "COMMUNITIES_CONFIG_URL is not set" then
    ⟨500, 500, some "Server configuration error", none⟩
  else if "No community config found for".toList.isPrefixOf e.toList then
    ⟨404, 404, some "Community not found", none⟩
  else if e == "Session request not found" then
    ⟨404, 404, some "Session request not found", none⟩
  else if e == "Session request expired" || e == "Challenge expired" then
    ⟨400, 400, some e, none⟩
  else if containsSubstring e "in request body" then ⟨400, 400, some e, none⟩
  else ⟨500, 500, some "Internal Server Error", none⟩

/-- Environment of the generateotp.ts PATCH handler. -/
structure PatchCfgEnv where
  providerPrivateKey : Option String
  config : Except String CommunityCfg
  ecrecover : HashExpr → String → String
  ledger : String → HashExpr → Option RawSessionResult
  now : Nat
  confirmTx : Except String String

/-- Try block of the generateotp.ts PATCH handler: each rejection is a
thrown Error with the message the code uses; success returns the confirm
transaction hash. -/
def patchCfgRun (env : PatchCfgEnv) (rawBody : SessionConfirmBody) :
    Except String String :=
  match sanitizeSessionConfirm rawBody with
  | .error e => .error e
  | .ok body =>
    match env.config with
    | .error e => .error e
    | .ok cfg =>
      match env.providerPrivateKey with
      | none => .error "PROVIDER_PRIVATE_KEY is not set"
      | some key =>
        if body.provider != cfg.providerAddress then
          .error "Invalid provider address"
        else
          match verifySessionConfirm env.ecrecover body.owner body.sessionHash
              body.signedSessionHash with
          | .error e => .error e
          | .ok false => .error "Invalid session confirm"
          | .ok true =>
            if verifyIncomingSessionRequest env.ledger env.now key
                cfg.providerAddress body.sessionRequestHash body.sessionHash then
              env.confirmTx
            else .error "Invalid session hash"

/-- PATCH of generateotp.ts: the try block with its catch dispatch. -/
def patchCfg (env : PatchCfgEnv) (rawBody : SessionConfirmBody) : ApiResponse :=
  match patchCfgRun env rawBody with
  | .ok tx => ⟨200, 200, none, some tx⟩
  | .error e => patchCfgErrorResponse e

/-- A well-formed 65-byte signature string used by the concrete theorems:
0x followed by 130 hex characters. -/
def sampleSig : String :=
  "0x" ++ String.mk (List.replicate 130 'a')

/-! ## Helper lemmas -/

/-- generateOtp with 6 digits, written with the powers evaluated. -/
theorem generateOtp_six_eq (r : ℚ) :
    generateOtp 6 r = Int.floor (100000 + r * 800000) := by
  unfold generateOtp
  norm_num

/-- Lower bound of the 6-digit OTP for a random draw in [0, 1). -/
theorem generateOtp6_lower (r : ℚ) (h0 : 0 ≤ r) : 100000 ≤ generateOtp 6 r := by
  rw [generateOtp_six_eq]
  exact Int.le_floor.mpr (by push_cast; nlinarith)

/-- Upper bound of the 6-digit OTP for a random draw in [0, 1): the largest
attainable value is 899999, not 999999. -/
theorem generateOtp6_upper (r : ℚ) (h1 : r < 1) : generateOtp 6 r ≤ 899999 := by
  rw [generateOtp_six_eq]
  have h := Int.floor_lt.mpr (show (100000 : ℚ) + r * 800000 < ((900000 : ℤ) : ℚ) by
    push_cast; nlinarith)
  omega

/-- Every integer between 100000 and 899999 is attainable by generateOtp. -/
theorem generateOtp6_attains (n : ℤ) (h1 : 100000 ≤ n) (h2 : n ≤ 899999) :
    ∃ r : ℚ, 0 ≤ r ∧ r < 1 ∧ generateOtp 6 r = n := by
  refine ⟨((n : ℚ) - 100000) / 800000, ?_, ?_, ?_⟩
  · apply div_nonneg _ (by norm_num)
    have : (100000 : ℚ) ≤ (n : ℚ) := by exact_mod_cast h1
    linarith
  · rw [div_lt_one (by norm_num)]
    have : (n : ℚ) ≤ 899999 := by exact_mod_cast h2
    linarith
  · rw [generateOtp_six_eq]
    have hx : (100000 : ℚ) + ((n : ℚ) - 100000) / 800000 * 800000 = (n : ℚ) := by
      field_simp
    rw [hx, Int.floor_intCast]

/-! ## Claim theorems -/

/-- C1. The confirm-flow expiry checks of verifyIncomingSessionRequest are
non-strict: the code rejects with the comparisons expiry < now and
challengeExpiry < now, so a record whose expiry equals the current time
passes the check (and now + 1 likewise); only a strictly smaller expiry is
rejected, and when both expiries are at least now the result is the stored
signature comparison. -/
theorem expiry_checks_nonstrict
    (ledger : String → HashExpr → Option RawSessionResult) (now : Nat)
    (signerKey provider : String) (srh sh : HashExpr) (r : RawSessionResult)
    (hfetch : ledger provider srh = some r) (hlen : 5 ≤ r.len) :
    (r.sessionExpiry < now →
      verifyIncomingInner ledger now signerKey provider srh sh
        = .error "Session request expired")
    ∧ (now ≤ r.sessionExpiry → r.challengeExpiry < now →
      verifyIncomingInner ledger now signerKey provider srh sh
        = .error "Challenge expired")
    ∧ (now ≤ r.sessionExpiry → now ≤ r.challengeExpiry →
      verifyIncomingSessionRequest ledger now signerKey provider srh sh
        = (r.storedSignedSessionHash
            == LedgerBytes.sig (signMessage signerKey sh))) := by
  have hlen5 : ¬ (r.len < 5) := by omega
  refine ⟨?_, ?_, ?_⟩
  · intro hs
    simp [verifyIncomingInner, hfetch, hlen5, hs]
  · intro hs hc
    have hs5 : ¬ (r.sessionExpiry < now) := by omega
    simp [verifyIncomingInner, hfetch, hlen5, hs5, hc]
  · intro hs hc
    have hs5 : ¬ (r.sessionExpiry < now) := by omega
    have hc5 : ¬ (r.challengeExpiry < now) := by omega
    simp [verifyIncomingSessionRequest, verifyIncomingInner, hfetch, hlen5, hs5, hc5]

/-- C1 witness: the non-strict acceptance clause applied at a concrete
ledger record whose sessionExpiry equals now. -/
theorem expiry_checks_nonstrict_witness :
    verifyIncomingSessionRequest
      (fun _ _ => some ⟨5, 150, 160, .raw "0x00"⟩) 150 "0xK" "0xP"
      (HashExpr.idHash "rq") (HashExpr.idHash "sh")
      = ((LedgerBytes.raw "0x00")
          == LedgerBytes.sig (signMessage "0xK" (HashExpr.idHash "sh"))) :=
  (expiry_checks_nonstrict (fun _ _ => some ⟨5, 150, 160, .raw "0x00"⟩) 150 "0xK"
    "0xP" (HashExpr.idHash "rq") (HashExpr.idHash "sh") ⟨5, 150, 160, .raw "0x00"⟩
    rfl (by decide)).2.2 (by decide) (by decide)

/-- C1 counterexample: a record whose sessionExpiry and challengeExpiry both
equal the current time, carrying the matching service signature, is accepted
by verifyIncomingSessionRequest, not rejected as the claim states. -/
theorem expiry_equal_now_accepted :
    verifyIncomingSessionRequest
      (fun _ _ => some ⟨5, 100, 100, .sig (signMessage "0xKey" (HashExpr.idHash "sh"))⟩)
      100 "0xKey" "0xProv" (HashExpr.idHash "rq") (HashExpr.idHash "sh") = true := by
  decide

/-- C3 (amended). verifySessionRequest and verifySessionConfirm return the
boolean comparison of the recovered address against the owner whenever the
signature string parses; a signature that does not parse makes the inner
ethers verifyMessage throw and the functions propagate that exception
instead of returning false. -/
theorem verify_wellformed_dichotomy
    (ecr : HashExpr → String → String)
    (provider owner source type : String) (expiry : Nat)
    (h : HashExpr) (sig : String) :
    (isWellFormedSignature sig = false →
      verifySessionRequest ecr provider owner source type expiry sig
        = .error "invalid signature"
      ∧ verifySessionConfirm ecr owner h sig = .error "invalid signature")
    ∧ (isWellFormedSignature sig = true →
      verifySessionRequest ecr provider owner source type expiry sig
        = .ok (ecr (generateSessionRequestHash provider owner
            (generateSessionSalt source type) expiry) sig == owner)
      ∧ verifySessionConfirm ecr owner h sig = .ok (ecr h sig == owner)) := by
  refine ⟨fun hw => ?_, fun hw => ?_⟩ <;>
    simp [verifySessionRequest, verifySessionConfirm, verifyMessage, hw]

/-- C3 counterexample: on the malformed signature 0xzz both verification
functions throw (Except.error) instead of returning false. -/
theorem malformed_signature_propagates_throw :
    verifySessionRequest (fun _ _ => "0xOwner") "0xProv" "0xOwner" "a@b.c"
      "email" 1000 "0xzz" = .error "invalid signature"
    ∧ verifySessionConfirm (fun _ _ => "0xOwner") "0xOwner"
      (HashExpr.idHash "m") "0xzz" = .error "invalid signature" :=
  ⟨rfl, rfl⟩

/-- C5 (amended). For a random draw in [0, 1) the 6-digit generateOtp value
lies in [100000, 899999] - the top of the claimed range is 9 * 10 ^ 5 - 1,
not 10 ^ 6 - 1, because the code multiplies the draw by
9 * 10 ^ (d - 1) - 10 ^ (d - 1) - and every integer of that smaller range
is attainable. -/
theorem generateOtp_range_attainability :
    (∀ r : ℚ, 0 ≤ r → r < 1 →
      100000 ≤ generateOtp 6 r ∧ generateOtp 6 r ≤ 899999)
    ∧ (∀ n : ℤ, 100000 ≤ n → n ≤ 899999 →
      ∃ r : ℚ, 0 ≤ r ∧ r < 1 ∧ generateOtp 6 r = n) :=
  ⟨fun r h0 h1 => ⟨generateOtp6_lower r h0, generateOtp6_upper r h1⟩,
   fun n h1 h2 => generateOtp6_attains n h1 h2⟩

/-- C5 counterexample: 999999 lies in the claimed inclusive range up to
10 ^ 6 - 1 but no random draw in [0, 1) produces it. -/
theorem generateOtp_never_999999 :
    ¬ ∃ r : ℚ, 0 ≤ r ∧ r < 1 ∧ generateOtp 6 r = 999999 := by
  rintro ⟨r, _, h1, he⟩
  have := generateOtp6_upper r h1
  omega

/-- C7 (amended). The verification functions compare the recovered address
to the expected address with exact, case-sensitive string equality: when the
recovered address is a, verifying against a returns true and verifying
against any other string b - in particular the same address with different
hexadecimal letter case - returns false. -/
theorem verify_address_compare_exact
    (ecr : HashExpr → String → String) (h : HashExpr) (sig : String)
    (a b : String) (hw : isWellFormedSignature sig = true)
    (hrec : ecr h sig = a) (hab : a ≠ b) :
    verifySessionConfirm ecr a h sig = .ok true
    ∧ verifySessionConfirm ecr b h sig = .ok false := by
  simp [verifySessionConfirm, verifyMessage, hw, hrec, hab]

/-- C7 witness: the exact-comparison theorem applied at a concrete recovered
address and the same address lowercased. -/
theorem verify_address_compare_exact_witness :
    verifySessionConfirm (fun _ _ => "0xAbCd") "0xAbCd" (HashExpr.idHash "w")
      sampleSig = .ok true
    ∧ verifySessionConfirm (fun _ _ => "0xAbCd") "0xabcd" (HashExpr.idHash "w")
      sampleSig = .ok false :=
  verify_address_compare_exact (fun _ _ => "0xAbCd") (HashExpr.idHash "w")
    sampleSig "0xAbCd" "0xabcd" rfl rfl (by decide)

/-- C7 counterexample: two expected addresses differing only in letter case
give different verification results, so the comparison is not
case-normalized. -/
theorem verify_address_compare_case_sensitive :
    verifySessionConfirm (fun _ _ => "0xAb") "0xAb" (HashExpr.idHash "m")
      sampleSig = .ok true
    ∧ verifySessionConfirm (fun _ _ => "0xAb") "0xab" (HashExpr.idHash "m")
      sampleSig = .ok false :=
  ⟨rfl, rfl⟩

/-- C2. Evaluation at the failing input: a confirm call whose ledger read
yields a tuple with fewer than 5 components (no record), every earlier check
passing. Internally verifyIncomingInner does produce the distinct
Session-request-not-found error, and the PATCH handler of generateotp.ts has
a branch mapping exactly that message to a 404, yet the route answers with
the generic 500 response, because verifyIncomingSessionRequest catches its
own error and returns false and the handler then throws the unmapped
Invalid-session-hash message. -/
theorem notfound_collapses_to_generic_error :
    patchCfg
      ⟨some "0xKey", .ok ⟨"0xProv"⟩, fun _ _ => "0xOwner",
       fun _ _ => some ⟨0, 0, 0, .raw "0x"⟩, 100, .ok "0xTX"⟩
      ⟨"0xProv", "0xOwner", HashExpr.idHash "rq", HashExpr.idHash "sh", sampleSig⟩
      = ⟨500, 500, some "Internal Server Error", none⟩
    ∧ verifyIncomingInner (fun _ _ => some ⟨0, 0, 0, .raw "0x"⟩) 100 "0xKey"
        "0xProv" (HashExpr.idHash "rq") (HashExpr.idHash "sh")
      = .error "Session request not found"
    ∧ patchCfgErrorResponse "Session request not found"
      = ⟨404, 404, some "Session request not found", none⟩ :=
  ⟨rfl, rfl, rfl⟩

/-- C4. Evaluation at the failing input: an email request whose source has
upper-case letters and surrounding whitespace. The post.ts handler verifies
the signature against the normalized source but submits the salt derived
from the raw source, which differs from the salt of the claim (derived from
the lowercased-and-trimmed source); the part_004 sanitizer, by contrast,
normalizes the source before any derivation. -/
theorem post_salt_derived_from_raw_source :
    postTs ⟨some "0xKey", some "0xProv", fun _ _ => "0xOwner", 123456, .ok (), .ok "0xTX"⟩
      ⟨"0xProv", "0xOwner", "User@Example.com ", "email", 1000, sampleSig⟩
    = (.ok ⟨200, 200, none, some "0xTX"⟩,
       [.configFetch,
        .relaySubmit (HashExpr.idHash "User@Example.com :email")
          (HashExpr.requestHash "0xProv" "0xOwner"
            (HashExpr.idHash "User@Example.com :email") 1000)
          (signMessage "0xKey" (HashExpr.sessionHashOf
            (HashExpr.requestHash "0xProv" "0xOwner"
              (HashExpr.idHash "User@Example.com :email") 1000) 123456))])
    ∧ generateSessionSalt "User@Example.com " "email"
      ≠ generateSessionSalt (normalizeSource "User@Example.com ") "email"
    ∧ sanitizeSessionRequest
        ⟨"0xProv", "0xOwner", "User@Example.com ", "email", 1000, sampleSig⟩
      = .ok ⟨"0xProv", "0xOwner", "user@example.com", "email", 1000, sampleSig⟩ :=
  ⟨rfl, by decide, rfl⟩

/-- Dispatch of the part_004 catch block at the provider-mismatch message. -/
theorem post4ErrorResponse_invalid_provider :
    post4ErrorResponse "Invalid provider address"
      = ⟨400, 400, some "Invalid provider address in request", none⟩ := rfl

/-- Dispatch of the part_004 catch block at the message sendOtpEmail throws:
no branch matches it, so it falls to the generic 500 response. -/
theorem post4ErrorResponse_failed_email :
    post4ErrorResponse "Failed to email"
      = ⟨500, 500, some "Internal Server Error", none⟩ := rfl

/-- C6 (amended). A provider-mismatch request is rejected before any hash
derivation, signature recovery, ledger read, relay submission or notifier
call in both POST variants; in the post.ts variant the rejection is fully
local (no external call at all, the trace is empty), while in the part_004
variant the community-config fetch - which supplies the expected provider
address - necessarily precedes the check, so its trace is exactly that one
fetch. -/
theorem provider_mismatch_rejection_locality :
    (∀ (env : PostTsEnv) (body : SessionRequestBody) (key addr : String),
      env.providerPrivateKey = some key → env.providerAccountAddress = some addr →
      body.provider ≠ addr →
      postTs env body = (.ok ⟨200, 400, some "Bad Request", none⟩, []))
    ∧ (∀ (env : Post4Env) (rawBody body : SessionRequestBody)
        (cfg : CommunityCfg) (key : String),
      sanitizeSessionRequest rawBody = .ok body →
      env.config = .ok cfg → env.providerPrivateKey = some key →
      body.provider ≠ cfg.providerAddress →
      post4 env rawBody
        = (⟨400, 400, some "Invalid provider address in request", none⟩,
           [Event.configFetch])) := by
  constructor
  · intro env body key addr hk ha hne
    simp [postTs, hk, ha, hne]
  · intro env rawBody body cfg key hsan hcfg hk hne
    simp [post4, hsan, hcfg, hk, hne, post4ErrorResponse_invalid_provider]

/-- C6 counterexample: in the part_004 handler a provider-mismatch request
is rejected only after the community-config fetch, an external call, so the
rejection is not decided without any external call as the claim states. -/
theorem provider_mismatch_follows_config_fetch :
    post4 ⟨some "0xKey", .ok ⟨"0xProv"⟩, fun _ _ => "0xOwner", 123456,
           fun _ _ => "", .ok "0xTX", .ok (), .ok (), [], 0⟩
      ⟨"0xOther", "0xOwner", "user@x.com", "email", 1000, sampleSig⟩
    = (⟨400, 400, some "Invalid provider address in request", none⟩,
       [Event.configFetch]) := rfl

/-- C8 (amended). In part_004, when the relay submission succeeds but the
subsequent OTP email delivery throws, the thrown Failed-to-email error
propagates to the catch-all of the handler: the call answers with the
generic 500 response and the transaction id is not returned, even though the
relay submission already happened (it appears in the trace and is not rolled
back). The failure is logged by that catch-all, but it does fail the
request. -/
theorem email_failure_fails_request
    (env : Post4Env) (rawBody body : SessionRequestBody) (cfg : CommunityCfg)
    (key tx : String)
    (hsan : sanitizeSessionRequest rawBody = .ok body)
    (htype : body.type = "email")
    (hcfg : env.config = .ok cfg) (hk : env.providerPrivateKey = some key)
    (hprov : body.provider = cfg.providerAddress)
    (hsig : verifySessionRequest env.ecrecover body.provider body.owner
      body.source body.type body.expiry body.signature = .ok true)
    (hotp : env.otp ≠ 0)
    (hrelay : env.relay = .ok tx)
    (hemail : env.email = .error "Failed to email") :
    post4 env rawBody
      = (⟨500, 500, some "Internal Server Error", none⟩,
         [Event.configFetch,
          Event.relaySubmit (generateSessionSalt body.source body.type)
            (generateSessionRequestHash body.provider body.owner
              (generateSessionSalt body.source body.type) body.expiry)
            (signMessage key (generateSessionHash
              (generateSessionRequestHash body.provider body.owner
                (generateSessionSalt body.source body.type) body.expiry) env.otp)),
          Event.emailSend body.source env.otp]) := by
  have hsig2 : verifySessionRequest env.ecrecover cfg.providerAddress body.owner
      body.source "email" body.expiry body.signature = .ok true := by
    rw [← hprov, ← htype]; exact hsig
  simp [post4, hsan, hcfg, hk, hprov, htype, hsig2, hotp, hrelay, hemail,
    post4ErrorResponse_failed_email]

/-- C8 witness: the delivery-failure theorem applied at a concrete
environment and request. -/
theorem email_failure_fails_request_witness :
    post4 ⟨some "0xK2", .ok ⟨"0xP2"⟩, fun _ _ => "0xO2", 654321, fun _ _ => "",
           .ok "0xT2", .error "Failed to email", .ok (), [], 5⟩
      ⟨"0xP2", "0xO2", "a@b.c", "email", 2000, sampleSig⟩
    = (⟨500, 500, some "Internal Server Error", none⟩,
       [Event.configFetch,
        Event.relaySubmit (generateSessionSalt "a@b.c" "email")
          (generateSessionRequestHash "0xP2" "0xO2"
            (generateSessionSalt "a@b.c" "email") 2000)
          (signMessage "0xK2" (generateSessionHash
            (generateSessionRequestHash "0xP2" "0xO2"
              (generateSessionSalt "a@b.c" "email") 2000) 654321)),
        Event.emailSend "a@b.c" 654321]) :=
  email_failure_fails_request
    ⟨some "0xK2", .ok ⟨"0xP2"⟩, fun _ _ => "0xO2", 654321, fun _ _ => "",
     .ok "0xT2", .error "Failed to email", .ok (), [], 5⟩
    ⟨"0xP2", "0xO2", "a@b.c", "email", 2000, sampleSig⟩
    ⟨"0xP2", "0xO2", "a@b.c", "email", 2000, sampleSig⟩
    ⟨"0xP2"⟩ "0xK2" "0xT2" rfl rfl rfl rfl rfl rfl (by decide) rfl rfl

/-- C8 counterexample: a request whose relay submission succeeds and whose
OTP email delivery fails answers with the generic 500 error and no
transaction id, refuting the claim that the call still succeeds and returns
the transaction id. -/
theorem email_failure_drops_txid :
    post4 ⟨some "0xKey", .ok ⟨"0xProv"⟩, fun _ _ => "0xOwner", 123456,
           fun _ _ => "", .ok "0xTX", .error "Failed to email", .ok (), [], 0⟩
      ⟨"0xProv", "0xOwner", "user@x.com", "email", 1000, sampleSig⟩
    = (⟨500, 500, some "Internal Server Error", none⟩,
       [Event.configFetch,
        Event.relaySubmit (HashExpr.idHash "user@x.com:email")
          (HashExpr.requestHash "0xProv" "0xOwner"
            (HashExpr.idHash "user@x.com:email") 1000)
          (signMessage "0xKey" (HashExpr.sessionHashOf
            (HashExpr.requestHash "0xProv" "0xOwner"
              (HashExpr.idHash "user@x.com:email") 1000) 123456)),
        Event.emailSend "user@x.com" 123456]) := rfl

/-- C9 (amended). The repository defines the 30-second count query
(getImmediateSessionRequestCount), but no handler consults the rate-limit
store: the outcome of a POST is entirely independent of its contents, so no
request ever fails with a rate-limit rejection. -/
theorem post_ignores_rate_limit_store :
    ∀ (env : Post4Env) (rows : List SessionRequestRow) (body : SessionRequestBody),
      post4 { env with dbRows := rows } body = post4 env body := by
  intro env rows body
  cases env
  rfl

/-- C9 counterexample: with 100 requests for the same salt and alias already
recorded inside the trailing 30-second window, a further valid request is
still submitted to the relay and succeeds - there is no RateLimited
rejection. -/
theorem over_threshold_request_succeeds :
    getImmediateSessionRequestCount
      (List.replicate 100 ⟨"salt1", "alias1", 999000⟩) "salt1" "alias1" 1000000
      = 100
    ∧ post4 ⟨some "0xKey", .ok ⟨"0xProv"⟩, fun _ _ => "0xOwner", 123456,
             fun _ _ => "", .ok "0xTX", .ok (), .ok (),
             List.replicate 100 ⟨"salt1", "alias1", 999000⟩, 1000000⟩
        ⟨"0xProv", "0xOwner", "user@x.com", "email", 1000, sampleSig⟩
      = (⟨200, 200, none, some "0xTX"⟩,
         [Event.configFetch,
          Event.relaySubmit (HashExpr.idHash "user@x.com:email")
            (HashExpr.requestHash "0xProv" "0xOwner"
              (HashExpr.idHash "user@x.com:email") 1000)
            (signMessage "0xKey" (HashExpr.sessionHashOf
              (HashExpr.requestHash "0xProv" "0xOwner"
                (HashExpr.idHash "user@x.com:email") 1000) 123456)),
          Event.emailSend "user@x.com" 123456]) :=
  ⟨by decide, rfl⟩

/-- C10 (amended). In the post.ts POST handler both the
missing-PROVIDER_ACCOUNT_ADDRESS response and the provider-mismatch response
are NextResponse.json calls without a status option, so they go out with
HTTP 200 and carry the error code only in the body status field (500 and
400); in the patch.ts PATCH handler this holds for the provider-mismatch
response, but the missing-PROVIDER_ACCOUNT_ADDRESS response does pass the
status option and goes out with HTTP 500. -/
theorem env_error_response_statuses :
    (∀ (env : PostTsEnv) (body : SessionRequestBody) (key : String),
      env.providerPrivateKey = some key → env.providerAccountAddress = none →
      postTs env body = (.ok ⟨200, 500, some "Internal Server Error", none⟩, []))
    ∧ (∀ (env : PostTsEnv) (body : SessionRequestBody) (key addr : String),
      env.providerPrivateKey = some key → env.providerAccountAddress = some addr →
      body.provider ≠ addr →
      postTs env body = (.ok ⟨200, 400, some "Bad Request", none⟩, []))
    ∧ (∀ (env : PatchTsEnv) (body : SessionConfirmBody) (key addr : String),
      env.providerPrivateKey = some key → env.providerAccountAddress = some addr →
      body.provider ≠ addr →
      patchTs env body = .ok ⟨200, 400, some "Bad Request", none⟩)
    ∧ (∀ (env : PatchTsEnv) (body : SessionConfirmBody) (key : String),
      env.providerPrivateKey = some key → env.providerAccountAddress = none →
      patchTs env body = .ok ⟨500, 500, some "Internal Server Error", none⟩) := by
  refine ⟨?_, ?_, ?_, ?_⟩
  · intro env body key hk ha
    simp [postTs, hk, ha]
  · intro env body key addr hk ha hne
    simp [postTs, hk, ha, hne]
  · intro env body key addr hk ha hne
    simp [patchTs, hk, ha, hne]
  · intro env body key hk ha
    simp [patchTs, hk, ha]

/-- C10 counterexample: in the patch.ts PATCH handler, the response for a
missing PROVIDER_ACCOUNT_ADDRESS goes out with HTTP status 500, not 200 as
the claim states for both handlers. -/
theorem patch_missing_address_http_500 :
    patchTs ⟨some "0xKey", none, fun _ _ => "0xO", .ok ⟨"0xProv"⟩,
             fun _ _ => none, 0, .ok "0xTX"⟩
      ⟨"0xProv", "0xO", HashExpr.idHash "rq", HashExpr.idHash "sh", sampleSig⟩
      = .ok ⟨500, 500, some "Internal Server Error", none⟩ := rfl

end CwSessions
